import Mathlib

/-!
Verification development for the clipper capture-and-clip pipeline.

The definitions below are a shallow embedding of the Rust sources:
  - `src/recorder/mod.rs` (the recorder command loop in `start_thread`),
  - `src/recorder/ffmpeg.rs` (`build_cmd`),
  - `src/recorder/types.rs` (encoder preset / quality / speed enums),
  - `src/camera.rs` (capability enumeration, stream start, capture sub-loop),
  - `src/messages/*.rs` (message types).

Wall-clock instants (`std::time::Instant`) are modelled as natural numbers
of milliseconds; external effects (process spawning, the filesystem, the
encoder, the audio worker) are modelled by an environment record holding
the outcome of each effectful call, and by an explicit event trace listing
every effect the recorder performs while handling one command.
-/

namespace Clipper

/-- Encoder preset enum from `src/recorder/types.rs`. -/
inductive EncoderPreset
| CPU
| NVIDIA
| AMD
| INTEL
deriving DecidableEq, Repr

/-- Encoding quality enum from `src/recorder/types.rs`. -/
inductive EncodingQuality
| High
| Med
| Low
deriving DecidableEq, Repr

/-- Encoding speed enum from `src/recorder/types.rs`. -/
inductive EncodingSpeed
| Fastest
| Balanced
| Compact
deriving DecidableEq, Repr

/-- Decimal rendering of `n`, zero-padded to width 3, as used for the
clip, thumbnail and preview file names. -/
def pad3 (n : Nat) : String :=
  if n < 10 then "00" ++ toString n
  else if n < 100 then "0" ++ toString n
  else toString n

/-- The fixed temporary video file name (`temp_vid` in `src/recorder/mod.rs`). -/
def temp_vid : String := "tmp_vid.mp4"

/-- The fixed temporary audio file name (`temp_aud` in `src/recorder/mod.rs`). -/
def temp_aud : String := "tmp_aud.mp4"

/-- Faithful translation of `build_cmd` from `src/recorder/ffmpeg.rs`:
the ffmpeg argument list for the per-segment encoder subprocess. -/
def build_cmd (width height fps : Nat) (format : String)
    (encoder : EncoderPreset) (quality : EncodingQuality) (speed : EncodingSpeed)
    (filename : String) : List String :=
  let fpstr := toString fps
  let input_args :=
    if format = "MJPEG" then
      ["-f", "mjpeg", "-framerate", fpstr, "-i", "-"]
    else if format = "YUYV" then
      ["-f", "rawvideo", "-pixel_format", "yuyv422",
       "-video_size", toString width ++ "x" ++ toString height,
       "-framerate", fpstr, "-i", "-"]
    else if format = "NV12" then
      ["-f", "rawvideo", "-pixel_format", "nv12",
       "-video_size", toString width ++ "x" ++ toString height,
       "-framerate", fpstr, "-i", "-"]
    else
      ["-f", "rawvideo", "-pixel_format", "rgb24",
       "-video_size", toString width ++ "x" ++ toString height,
       "-framerate", fpstr, "-i", "-"]
  let enc_args :=
    match encoder with
    | EncoderPreset.CPU =>
      let preset := match speed with
        | EncodingSpeed.Fastest => "ultrafast"
        | EncodingSpeed.Balanced => "veryfast"
        | EncodingSpeed.Compact => "medium"
      let crf := match quality with
        | EncodingQuality.High => "18"
        | EncodingQuality.Med => "23"
        | EncodingQuality.Low => "28"
      ["-c:v", "libx264", "-vf", "format=yuv420p",
       "-preset", preset, "-crf", crf, "-tune", "zerolatency"]
    | EncoderPreset.NVIDIA =>
      let preset := match speed with
        | EncodingSpeed.Fastest => "p1"
        | EncodingSpeed.Balanced => "p4"
        | EncodingSpeed.Compact => "p7"
      let cq := match quality with
        | EncodingQuality.High => "19"
        | EncodingQuality.Med => "23"
        | EncodingQuality.Low => "28"
      ["-c:v", "h264_nvenc", "-vf", "format=yuv420p",
       "-preset", preset, "-rc:v", "vbr", "-cq", cq]
    | EncoderPreset.AMD =>
      ["-c:v", "h264_amf", "-vf", "format=yuv420p", "-usage", "transcoding"]
    | EncoderPreset.INTEL =>
      ["-c:v", "h264_qsv", "-vf", "format=nv12", "-preset", "medium"]
  input_args ++ enc_args ++ ["-y", filename]

/-- `ClipInfo` from `src/messages/recorder.rs`; `duration` is the
ffprobe-reported duration in seconds. -/
structure ClipInfo where
  video_path : String
  thumb_path : String
  preview_path : String
  duration : ℚ
deriving DecidableEq, Repr

/-- `RecorderCommand` from `src/messages/recorder.rs`.  Frame buffers are
byte lists; capture times are milliseconds. -/
inductive RecorderCommand
| StartSegment
| WriteFrame (data : List Nat) (capture_time : Nat)
| EndSegment
| Undo
| UpdateConfig (width height fps : Nat) (format : String)
    (encoder : EncoderPreset) (quality : EncodingQuality) (speed : EncodingSpeed)
| SetAudioDevice (index : Nat)
| FinalizeVideo (ordered_files : List String) (output_filename : String)
deriving DecidableEq, Repr

/-- `RecorderStatus` from `src/messages/recorder.rs`. -/
inductive RecorderStatus
| SegmentSaved (clip : ClipInfo)
| SegmentDeleted
| VideoFinalized (path : String)
| Error (msg : String)
deriving DecidableEq, Repr

/-- `AudioCommand` from `src/messages/audio.rs` (the `StopRecording` ack
sender is immaterial to the recorder-side trace). -/
inductive AudioCommand
| SelectDevice (index : Nat)
| StartRecording (path : String)
| StopRecording
deriving DecidableEq, Repr

/-- The encoder subprocess handle (`std::process::Child`): the recorder
spawns it with `stdin(Stdio::piped())`, so `stdin_piped` records whether
the stdin handle is present. -/
structure Child where
  stdin_piped : Bool
deriving DecidableEq, Repr

/-- One observable effect performed by the recorder while handling a
command: a write of a frame buffer to the encoder stdin, a subprocess
invocation, a status message, an audio command, or a filesystem action. -/
inductive REvent
| encWrite (buf : List Nat)
| spawnEncoder (args : List String)
| waitEncoder
| runMux (vid aud out : String)
| runThumb (src out : String)
| runGif (src out : String)
| runConcat (listFile out : String)
| probeDuration (path : String)
| status (s : RecorderStatus)
| audio (a : AudioCommand)
| removeFile (path : String)
| createFile (path : String) (lines : List String)
deriving DecidableEq, Repr

/-- The mutable state of the recorder thread command loop
(the local variables of `start_thread` in `src/recorder/mod.rs`). -/
structure RecorderState where
  video_process : Option Child
  segments : List String
  counter : Nat
  width : Nat
  height : Nat
  fps : Nat
  format : String
  encoder : EncoderPreset
  quality : EncodingQuality
  speed : EncodingSpeed
  clip_start_time : Nat
  waiting_for_first_frame : Bool
  frames_written : Nat
  last_frame_data : Option (List Nat)
deriving DecidableEq, Repr

/-- The initial recorder state (`start_thread` locals before the loop). -/
def initialRecorderState : RecorderState :=
  { video_process := none
    segments := []
    counter := 0
    width := 640
    height := 480
    fps := 30
    format := "MJPEG"
    encoder := EncoderPreset.CPU
    quality := EncodingQuality.Med
    speed := EncodingSpeed.Balanced
    clip_start_time := 0
    waiting_for_first_frame := false
    frames_written := 0
    last_frame_data := none }

/-- Environment for one command: the outcomes of the effectful calls the
handler may make (current instant in milliseconds, spawn result, stdin
write result, temp-file existence, mux/concat exit status, probed clip
duration, audio channel liveness). -/
structure RecorderEnv where
  now : Nat
  spawnOk : Bool
  spawnErr : String
  writeOk : Bool
  tempVidExists : Bool
  tempAudExists : Bool
  muxOk : Bool
  concatOk : Bool
  clipDuration : ℚ
  audioSendOk : Bool
  audioErr : String
deriving Repr

/-- `(duration_secs * fps as f64).round() as u64` where `duration_secs`
is `elapsedMs / 1000`: with a nonnegative argument, f64 `round` is
round-half-up, so the value is `⌊(elapsedMs·fps/1000) + 1/2⌋ =
(2·elapsedMs·fps + 1000) / 2000` in natural division. -/
def expectedFrames (elapsedMs fps : Nat) : Nat :=
  (2 * elapsedMs * fps + 1000) / 2000

/-- `expectedFrames` agrees with the mathematical `round (T · fps)`
for `T = elapsedMs / 1000` seconds. -/
theorem expectedFrames_eq_round (elapsedMs fps : Nat) :
    (expectedFrames elapsedMs fps : ℤ) =
      round ((elapsedMs : ℚ) / 1000 * fps) := by
  rw [round_eq]
  have h : (elapsedMs : ℚ) / 1000 * fps + 1 / 2 =
      ((2 * elapsedMs * fps + 1000 : ℕ) : ℚ) / ((2000 : ℕ) : ℚ) := by
    push_cast
    ring
  rw [h, Rat.floor_natCast_div_natCast]
  rw [expectedFrames]
  rfl

/-- `RecorderCommand::UpdateConfig` arm of the command loop. -/
def updateConfigStep (s : RecorderState) (w h f : Nat) (fmt : String)
    (enc : EncoderPreset) (qty : EncodingQuality) (spd : EncodingSpeed) :
    RecorderState × List REvent :=
  ({ s with width := w, height := h, fps := f, format := fmt,
            encoder := enc, quality := qty, speed := spd }, [])

/-- `RecorderCommand::SetAudioDevice` arm: forward to the audio worker;
if the audio channel is gone, report it on the status channel. -/
def setAudioDeviceStep (s : RecorderState) (index : Nat) (env : RecorderEnv) :
    RecorderState × List REvent :=
  if env.audioSendOk then
    (s, [REvent.audio (AudioCommand.SelectDevice index)])
  else
    (s, [REvent.status (RecorderStatus.Error ("Audio thread lost: " ++ env.audioErr))])

/-- `RecorderCommand::StartSegment` arm: bump the counter, reset the
per-segment frame bookkeeping, spawn the encoder, and (whether or not the
spawn succeeded) tell the audio worker to start recording `tmp_aud.mp4`. -/
def startSegmentStep (s : RecorderState) (env : RecorderEnv) :
    RecorderState × List REvent :=
  let s1 := { s with counter := s.counter + 1, frames_written := 0,
                     last_frame_data := none }
  let args := build_cmd s1.width s1.height s1.fps s1.format s1.encoder s1.quality s1.speed temp_vid
  if env.spawnOk then
    ({ s1 with video_process := some { stdin_piped := true },
               clip_start_time := env.now, waiting_for_first_frame := true },
     [REvent.spawnEncoder args,
      REvent.audio (AudioCommand.StartRecording temp_aud)])
  else
    (s1,
     [REvent.spawnEncoder args,
      REvent.status (RecorderStatus.Error ("Failed to spawn ffmpeg: " ++ env.spawnErr)),
      REvent.audio (AudioCommand.StartRecording temp_aud)])

/-- `RecorderCommand::WriteFrame` arm: drop pre-segment frames; on the
first frame of a segment re-arm the audio recording and reset the clip
start; write the buffer to the encoder stdin, and on a successful write
count it and retain it as the last frame. -/
def writeFrameStep (s : RecorderState) (data : List Nat) (capture_time : Nat)
    (env : RecorderEnv) : RecorderState × List REvent :=
  if capture_time < s.clip_start_time then (s, [])
  else
    match s.video_process with
    | none => (s, [])
    | some proc =>
      let firstFrame := s.waiting_for_first_frame
      let s1 := if firstFrame then
                  { s with clip_start_time := env.now, waiting_for_first_frame := false }
                else s
      let evs0 : List REvent :=
        if firstFrame then [REvent.audio (AudioCommand.StartRecording temp_aud)] else []
      if proc.stdin_piped then
        if env.writeOk then
          ({ s1 with frames_written := s1.frames_written + 1,
                     last_frame_data := some data },
           evs0 ++ [REvent.encWrite data])
        else (s1, evs0 ++ [REvent.encWrite data])
      else (s1, evs0)

/-- The padding writes of the `EndSegment` arm: if the encoder is alive
with a piped stdin and fewer frames were written than expected, write
`expected − frames_written` copies of the last frame — when there is one. -/
def padEvents (s : RecorderState) (expected : Nat) : List REvent :=
  match s.video_process with
  | some proc =>
    if proc.stdin_piped then
      if s.frames_written < expected then
        match s.last_frame_data with
        | some last_data =>
          List.replicate (expected - s.frames_written) (REvent.encWrite last_data)
        | none => []
      else []
    else []
  | none => []

/-- `RecorderCommand::EndSegment` arm: pad, close and wait for the
encoder, stop audio, check the temp files, mux, and on success generate
thumbnail and preview, probe the duration and append the clip. -/
def endSegmentStep (s : RecorderState) (env : RecorderEnv) :
    RecorderState × List REvent :=
  let s1 := { s with waiting_for_first_frame := false }
  let durationMs := env.now - s1.clip_start_time
  let expected := expectedFrames durationMs s1.fps
  let pads := padEvents s1 expected
  let waits : List REvent :=
    if s1.video_process.isSome then [REvent.waitEncoder] else []
  let s2 := { s1 with video_process := none }
  let stops : List REvent := [REvent.audio AudioCommand.StopRecording]
  if !env.tempVidExists || !env.tempAudExists then
    (s2, pads ++ waits ++ stops ++
      [REvent.status (RecorderStatus.Error "Temp files missing, recording failed"),
       REvent.removeFile temp_vid, REvent.removeFile temp_aud])
  else
    let finfile := "clip_" ++ pad3 s2.counter ++ ".mp4"
    let thumb_path := "thumb_" ++ pad3 s2.counter ++ ".jpg"
    let preview_path := "preview_" ++ pad3 s2.counter ++ ".gif"
    if env.muxOk then
      let clip : ClipInfo :=
        { video_path := finfile, thumb_path := thumb_path,
          preview_path := preview_path, duration := env.clipDuration }
      ({ s2 with segments := s2.segments ++ [finfile] },
       pads ++ waits ++ stops ++
        [REvent.runMux temp_vid temp_aud finfile,
         REvent.runThumb finfile thumb_path,
         REvent.runGif finfile preview_path,
         REvent.probeDuration finfile,
         REvent.status (RecorderStatus.SegmentSaved clip),
         REvent.removeFile temp_vid, REvent.removeFile temp_aud])
    else
      (s2, pads ++ waits ++ stops ++
        [REvent.runMux temp_vid temp_aud finfile,
         REvent.status (RecorderStatus.Error "Merge failed")])

/-- `RecorderCommand::Undo` arm: pop the newest segment path, delete that
file, and announce the deletion; a no-op on an empty list. -/
def undoStep (s : RecorderState) : RecorderState × List REvent :=
  match s.segments.getLast? with
  | none => (s, [])
  | some path =>
    ({ s with segments := s.segments.dropLast },
     [REvent.removeFile path, REvent.status RecorderStatus.SegmentDeleted])

/-- The concat-list line for one segment: the word `file`, a space, and
the path wrapped in single-quote characters. -/
def concatLine (path : String) : String :=
  "file " ++ String.singleton (Char.ofNat 39) ++ path ++ String.singleton (Char.ofNat 39)

/-- `RecorderCommand::FinalizeVideo` arm: a no-op on an empty list;
otherwise write the concat list, run the concat, and on success announce
the output, delete the list file and every recorded segment, clear the
list and reset the counter. -/
def finalizeVideoStep (s : RecorderState) (ordered_files : List String)
    (output_filename : String) (env : RecorderEnv) : RecorderState × List REvent :=
  if ordered_files.isEmpty then (s, [])
  else
    let list_file := "concat_list.txt"
    let createEv := REvent.createFile list_file (ordered_files.map concatLine)
    let concatEv := REvent.runConcat list_file output_filename
    if env.concatOk then
      ({ s with segments := [], counter := 0 },
       [createEv, concatEv,
        REvent.status (RecorderStatus.VideoFinalized output_filename),
        REvent.removeFile list_file] ++ s.segments.map REvent.removeFile)
    else
      (s, [createEv, concatEv,
           REvent.status (RecorderStatus.Error "Final concat fialed")])

/-- One iteration of the recorder thread command loop
(`start_thread` in `src/recorder/mod.rs`): dispatch on the command. -/
def recorder_step (s : RecorderState) (cmd : RecorderCommand) (env : RecorderEnv) :
    RecorderState × List REvent :=
  match cmd with
  | RecorderCommand.UpdateConfig w h f fmt enc qty spd =>
      updateConfigStep s w h f fmt enc qty spd
  | RecorderCommand.SetAudioDevice index => setAudioDeviceStep s index env
  | RecorderCommand.StartSegment => startSegmentStep s env
  | RecorderCommand.WriteFrame data capture_time => writeFrameStep s data capture_time env
  | RecorderCommand.EndSegment => endSegmentStep s env
  | RecorderCommand.Undo => undoStep s
  | RecorderCommand.FinalizeVideo ordered_files output_filename =>
      finalizeVideoStep s ordered_files output_filename env

/-- Number of frame buffers written to the encoder stdin in a trace. -/
def countEncWrites (evs : List REvent) : Nat :=
  evs.countP (fun e => match e with | REvent.encWrite _ => true | _ => false)

/-- `VideoConfig` from `src/messages/video.rs`; equality is structural
(the Rust type derives `PartialEq`). -/
structure VideoConfig where
  width : Nat
  height : Nat
  fps : Nat
  fmt : String
deriving DecidableEq, Repr

/-- A `nokhwa::utils::CameraFormat` as the enumeration code reads it:
resolution, frame rate and the `Display` form of its frame format. -/
structure CameraFormat where
  width : Nat
  height : Nat
  frame_rate : Nat
  format_name : String
deriving DecidableEq, Repr

/-- The `VideoConfig` built from one reported format
(`src/camera.rs`, capability enumeration). -/
def toVideoConfig (f : CameraFormat) : VideoConfig :=
  { width := f.width, height := f.height, fps := f.frame_rate, fmt := f.format_name }

/-- One step of the deduplicating accumulation of the enumeration loop
(`if !configs.contains(&c) { configs.push(c); }`). -/
def dedupPush (acc : List VideoConfig) (f : CameraFormat) : List VideoConfig :=
  let c := toVideoConfig f
  if c ∈ acc then acc else acc ++ [c]

/-- The deduplication pass of the enumeration loop: push each config
unless it is already present, so the first occurrence is kept. -/
def dedupConfigs (formats : List CameraFormat) : List VideoConfig :=
  formats.foldl dedupPush []

/-- The sort order of `configs.sort_by(|a, b|
b.width.cmp(&a.width).then(b.fps.cmp(&a.fps)))`: `a` may precede `b`
exactly when the comparator does not answer `Greater`. -/
def cfgLe (a b : VideoConfig) : Bool :=
  Nat.blt b.width a.width || (a.width == b.width && Nat.ble b.fps a.fps)

/-- Capability enumeration (`src/camera.rs` lines 37–51): deduplicate the
reported formats, then stable-sort descending by width, ties by fps. -/
def enumerateConfigs (formats : List CameraFormat) : List VideoConfig :=
  (dedupConfigs formats).mergeSort cfgLe

/-- `CameraMessage` from `src/messages/camera.rs`; frame buffers are byte
lists. -/
inductive CameraMessage
| Capabilities (configs : List VideoConfig)
| Frame (raw : List Nat) (preview : List Nat) (p_width p_height : Nat)
| StreamStarted (w h fps : Nat)
| Error (msg : String)
deriving DecidableEq, Repr

/-- The camera handle obtained from `Camera::new(index, req)` for the
exact requested format: the device reports its own negotiated format,
available through the handle but never read by the streaming code. -/
structure OpenedCamera where
  reported_width : Nat
  reported_height : Nat
  reported_fps : Nat
deriving DecidableEq, Repr

/-- The `StartStream` handling of `src/camera.rs` (lines 72–93) after a
config was received: re-open the camera at the exact requested format and
open the stream; on success emit `StreamStarted` built from the requested
config. `openResult` is the outcome of `Camera::new`, `openStreamOk` of
`camera.open_stream()`, and `errText` the error rendering used on the
failure paths. -/
def startStreamMessages (cfg : VideoConfig) (openResult : Option OpenedCamera)
    (openStreamOk : Bool) (errText : String) : List CameraMessage :=
  match openResult with
  | none => [CameraMessage.Error ("Re-init failed: " ++ errText)]
  | some _cam =>
    if openStreamOk then
      [CameraMessage.StreamStarted cfg.width cfg.height cfg.fps]
    else
      [CameraMessage.Error ("Open stream failed: " ++ errText)]

/-- A decoded RGB image as produced by `frame.decode_image::<RgbFormat>()`:
dimensions and the flattened RGB24 byte buffer. -/
structure DecodedImage where
  width : Nat
  height : Nat
  pixels : List Nat
deriving DecidableEq, Repr

/-- Preview width constant `W480p` from `src/camera.rs`. -/
def W480p : Nat := 854

/-- Preview height constant `H480p` from `src/camera.rs`. -/
def H480p : Nat := 480

/-- Model of the external `image::imageops::resize` call with
`FilterType::Nearest`: nearest-neighbour sampling of the source image to
the target size, RGB24 layout. -/
def resizeNearest (img : DecodedImage) (outW outH : Nat) : List Nat :=
  (List.range outH).flatMap (fun y =>
    (List.range outW).flatMap (fun x =>
      let sx := x * img.width / outW
      let sy := y * img.height / outH
      let base := (sy * img.width + sx) * 3
      [img.pixels.getD base 0, img.pixels.getD (base + 1) 0,
       img.pixels.getD (base + 2) 0]))

/-- State of the capture sub-thread: the single-slot latest-frame cell
shared with the pacing loop (`latest_frame` in `src/camera.rs`). -/
structure CaptureState where
  latest_frame : Option (List Nat)
deriving DecidableEq, Repr

/-- Outcome of one blocking `camera.frame()` call: a captured buffer
together with the result of `decode_image` (which can fail), or a read
error. -/
inductive FrameResult
| ok (buffer : List Nat) (decoded : Option DecodedImage)
| err (msg : String)
deriving DecidableEq, Repr

/-- Non-message effect of one capture iteration. -/
inductive CaptureEffect
| sleepMs (ms : Nat)
deriving DecidableEq, Repr

/-- One iteration of the capture sub-loop (`src/camera.rs` lines 98–127):
on a captured frame, publish the raw buffer into the latest-frame cell
and, if decoding succeeded, emit a `Frame` message carrying an **empty**
raw buffer and the downscaled preview; on a read error, sleep 10 ms and
retry (the loop never exits and sends nothing). -/
def captureStep (st : CaptureState) (res : FrameResult) :
    CaptureState × List CameraMessage × List CaptureEffect :=
  match res with
  | FrameResult.ok buffer decoded =>
    let st1 : CaptureState := { latest_frame := some buffer }
    match decoded with
    | some img =>
      let preview := resizeNearest img W480p H480p
      (st1, [CameraMessage.Frame [] preview W480p H480p], [])
    | none => (st1, [], [])
  | FrameResult.err _ => (st, [], [CaptureEffect.sleepMs 10])

/-- A fully specified benign environment, the base for the concrete
scenarios below. -/
def baseEnv : RecorderEnv :=
  { now := 0
    spawnOk := true
    spawnErr := ""
    writeOk := true
    tempVidExists := true
    tempAudExists := true
    muxOk := true
    concatOk := true
    clipDuration := 0
    audioSendOk := true
    audioErr := "" }

/-- Padding writes are the only `encWrite` events of `EndSegment`, and
there are none without a retained last frame. -/
theorem removeFile_not_mem_padEvents (s : RecorderState) (expected : Nat) (p : String) :
    REvent.removeFile p ∉ padEvents s expected := by
  unfold padEvents
  repeat' split
  all_goals simp [List.mem_replicate]

/-- Counting `encWrite`s in a run of identical padding writes. -/
theorem countEncWrites_replicate (n : Nat) (buf : List Nat) :
    countEncWrites (List.replicate n (REvent.encWrite buf)) = n := by
  induction n with
  | zero => rfl
  | succ k ih =>
    simp only [List.replicate_succ, countEncWrites, List.countP_cons] at *
    simp [ih]

/-- The padding write count of `EndSegment` when the encoder is alive
with a piped stdin and a last frame was retained. -/
theorem countEncWrites_padEvents (s : RecorderState) (expected : Nat)
    (proc : Child) (lastData : List Nat)
    (hp : s.video_process = some proc) (hstdin : proc.stdin_piped = true)
    (hl : s.last_frame_data = some lastData) :
    countEncWrites (padEvents s expected) = expected - s.frames_written := by
  unfold padEvents
  rw [hp]
  simp only [hstdin, if_true]
  by_cases h : s.frames_written < expected
  · simp [h, hl, countEncWrites_replicate]
  · simp [h, countEncWrites]
    omega

/-- C9: `FinalizeVideo` with an empty ordered-paths list is a complete
no-op: the recorder emits no status message, performs no filesystem or
subprocess action (in particular `concat_list.txt` is neither created nor
deleted), and leaves the whole state — segment list and counter included —
unchanged. -/
theorem c9_finalize_empty_noop (s : RecorderState) (out : String) (env : RecorderEnv) :
    recorder_step s (RecorderCommand.FinalizeVideo [] out) env = (s, []) := by
  simp [recorder_step, finalizeVideoStep]

/-- C8: the counter after any command: `StartSegment` increments it by
exactly 1, a nonempty `FinalizeVideo` with a successful concat resets it
to 0, and every other command — `Undo`, `EndSegment`, a failed or empty
`FinalizeVideo`, and the rest — leaves it unchanged; hence the counter is
monotone non-decreasing except across a successful `FinalizeVideo`. -/
theorem c8_counter_law (s : RecorderState) (cmd : RecorderCommand) (env : RecorderEnv) :
    ((recorder_step s cmd env).1).counter =
      match cmd with
      | RecorderCommand.StartSegment => s.counter + 1
      | RecorderCommand.FinalizeVideo files _ =>
          if files.isEmpty then s.counter
          else if env.concatOk then 0 else s.counter
      | _ => s.counter := by
  cases cmd <;>
    simp only [recorder_step, updateConfigStep, setAudioDeviceStep, startSegmentStep,
      writeFrameStep, endSegmentStep, undoStep, finalizeVideoStep] <;>
    repeat' (first | split | simp_all)

/-- C10: when the encoder fails to spawn on `StartSegment` from Idle, the
recorder emits an error status but still increments the counter (the
failed attempt consumes a clip number) and still sends
`StartRecording(tmp_aud)` to the audio worker, while no video process
comes into existence. -/
theorem c10_spawn_failure (s : RecorderState) (env : RecorderEnv)
    (hIdle : s.video_process = none) (hspawn : env.spawnOk = false) :
    ((recorder_step s RecorderCommand.StartSegment env).1.counter = s.counter + 1) ∧
    ((recorder_step s RecorderCommand.StartSegment env).1.video_process = none) ∧
    (REvent.status (RecorderStatus.Error ("Failed to spawn ffmpeg: " ++ env.spawnErr)) ∈
      (recorder_step s RecorderCommand.StartSegment env).2) ∧
    (REvent.audio (AudioCommand.StartRecording temp_aud) ∈
      (recorder_step s RecorderCommand.StartSegment env).2) := by
  simp [recorder_step, startSegmentStep, hspawn, hIdle]

/-- Concrete witness input for the spawn-failure scenario. -/
def spawnFailEnv : RecorderEnv := { baseEnv with spawnOk := false, spawnErr := "No such file" }

/-- Witness for `c10_spawn_failure` at the initial state with a failing
spawn. -/
theorem c10_spawn_failure_witness :
    ((recorder_step initialRecorderState RecorderCommand.StartSegment spawnFailEnv).1.counter =
      initialRecorderState.counter + 1) ∧
    ((recorder_step initialRecorderState RecorderCommand.StartSegment spawnFailEnv).1.video_process = none) ∧
    (REvent.status (RecorderStatus.Error ("Failed to spawn ffmpeg: " ++ spawnFailEnv.spawnErr)) ∈
      (recorder_step initialRecorderState RecorderCommand.StartSegment spawnFailEnv).2) ∧
    (REvent.audio (AudioCommand.StartRecording temp_aud) ∈
      (recorder_step initialRecorderState RecorderCommand.StartSegment spawnFailEnv).2) :=
  c10_spawn_failure initialRecorderState spawnFailEnv rfl rfl

/-- A recorder state holding exactly one saved segment. -/
def undoExState : RecorderState :=
  { initialRecorderState with segments := ["clip_001.mp4"], counter := 1 }

/-- C2 counterexample: with one saved segment, `Undo` removes exactly one
file — the clip video — and emits `SegmentDeleted`; neither the thumbnail
`thumb_001.jpg` nor the preview `preview_001.gif` is deleted, refuting
the claim that all three on-disk files are removed. -/
theorem c2_counterexample :
    ((recorder_step undoExState RecorderCommand.Undo baseEnv).2 =
      [REvent.removeFile "clip_001.mp4", REvent.status RecorderStatus.SegmentDeleted]) ∧
    (REvent.removeFile "thumb_001.jpg" ∉
      (recorder_step undoExState RecorderCommand.Undo baseEnv).2) ∧
    (REvent.removeFile "preview_001.gif" ∉
      (recorder_step undoExState RecorderCommand.Undo baseEnv).2) := by
  refine ⟨rfl, ?_, ?_⟩ <;> decide

/-- C2 (amended): for every `Undo` received while the segment list is
non-empty, the recorder removes the newest path from the list, deletes
that single on-disk file (the clip video only — the segment list holds no
thumbnail or preview paths, and no other file is touched), and emits
`SegmentDeleted`. -/
theorem c2_undo_amended (s : RecorderState) (env : RecorderEnv) (path : String)
    (h : s.segments.getLast? = some path) :
    recorder_step s RecorderCommand.Undo env =
      ({ s with segments := s.segments.dropLast },
       [REvent.removeFile path, REvent.status RecorderStatus.SegmentDeleted]) := by
  simp [recorder_step, undoStep, h]

/-- Witness for `c2_undo_amended` on the one-segment state. -/
theorem c2_undo_amended_witness :
    recorder_step undoExState RecorderCommand.Undo baseEnv =
      ({ undoExState with segments := List.dropLast ["clip_001.mp4"] },
       [REvent.removeFile "clip_001.mp4", REvent.status RecorderStatus.SegmentDeleted]) :=
  c2_undo_amended undoExState baseEnv "clip_001.mp4" rfl

/-- A recorder state in mid-recording: encoder alive, 30 frames written,
last frame retained. -/
def endExState : RecorderState :=
  { initialRecorderState with
      video_process := some { stdin_piped := true }
      counter := 1
      frames_written := 30
      last_frame_data := some [1, 2, 3]
      clip_start_time := 0 }

/-- Environment for an `EndSegment` whose mux fails while both temp files
exist. -/
def muxFailEnv : RecorderEnv := { baseEnv with now := 1000, muxOk := false }

/-- C3 counterexample: on the mux-failure exit path of `EndSegment`
(both temp files present, merge exits non-zero) neither `tmp_vid.mp4` nor
`tmp_aud.mp4` is deleted, refuting the claim that the temp files are
deleted on every exit path. -/
theorem c3_counterexample :
    (REvent.removeFile temp_vid ∉
      (recorder_step endExState RecorderCommand.EndSegment muxFailEnv).2) ∧
    (REvent.removeFile temp_aud ∉
      (recorder_step endExState RecorderCommand.EndSegment muxFailEnv).2) := by
  decide

/-- C3 (amended): `EndSegment` always returns the recorder to Idle, and
the temporary files are deleted exactly on the temp-check-failure path
and on the mux-success path — on a mux failure with both temp files
present they are left on disk. -/
theorem c3_endsegment_cleanup_amended (s : RecorderState) (env : RecorderEnv) :
    ((recorder_step s RecorderCommand.EndSegment env).1.video_process = none) ∧
    ((REvent.removeFile temp_vid ∈ (recorder_step s RecorderCommand.EndSegment env).2 ∧
      REvent.removeFile temp_aud ∈ (recorder_step s RecorderCommand.EndSegment env).2) ↔
      (env.tempVidExists = false ∨ env.tempAudExists = false ∨ env.muxOk = true)) := by
  constructor
  · simp only [recorder_step, endSegmentStep]
    repeat' split
    all_goals rfl
  · by_cases hv : env.tempVidExists <;> by_cases ha : env.tempAudExists <;>
      by_cases hm : env.muxOk <;>
      simp [recorder_step, endSegmentStep, hv, ha, hm, removeFile_not_mem_padEvents,
        temp_vid, temp_aud]

/-- C1 (amended): padding law, valid when the encoder is alive with a
piped stdin and at least one frame has been written (so a last frame is
retained): `EndSegment` writes exactly `expected − frames_written`
padding copies of the last frame to the encoder stdin (none when already
at or above target), so that by the time the encoder stdin closes the
total number of frame buffers written is at least
`round(T · fps)` for the elapsed time `T = (now − clip_start)/1000`
seconds. -/
theorem c1_padding_amended (s : RecorderState) (env : RecorderEnv)
    (proc : Child) (lastData : List Nat)
    (hp : s.video_process = some proc) (hstdin : proc.stdin_piped = true)
    (hl : s.last_frame_data = some lastData) :
    (countEncWrites (recorder_step s RecorderCommand.EndSegment env).2 =
      expectedFrames (env.now - s.clip_start_time) s.fps - s.frames_written) ∧
    ((s.frames_written : ℤ) +
        countEncWrites (recorder_step s RecorderCommand.EndSegment env).2 ≥
      round (((env.now - s.clip_start_time : Nat) : ℚ) / 1000 * s.fps)) := by
  have key : countEncWrites (recorder_step s RecorderCommand.EndSegment env).2 =
      expectedFrames (env.now - s.clip_start_time) s.fps - s.frames_written := by
    have hpad := countEncWrites_padEvents
      { s with waiting_for_first_frame := false }
      (expectedFrames (env.now - s.clip_start_time) s.fps) proc lastData hp hstdin hl
    by_cases hv : env.tempVidExists <;> by_cases ha : env.tempAudExists <;>
      by_cases hm : env.muxOk <;>
      simp_all [recorder_step, endSegmentStep, hp, countEncWrites, List.countP_append]
  refine ⟨key, ?_⟩
  rw [key]
  have h := expectedFrames_eq_round (env.now - s.clip_start_time) s.fps
  rw [← h]
  omega

/-- A recorder state at `EndSegment` with the encoder alive but no frame
ever written (last frame absent). -/
def c1xState : RecorderState :=
  { initialRecorderState with
      video_process := some { stdin_piped := true }
      counter := 1
      clip_start_time := 0 }

/-- Environment one second after the segment started. -/
def oneSecondEnv : RecorderEnv := { baseEnv with now := 1000 }

/-- C1 counterexample: at 30 fps with 1 s elapsed and zero frames
written, `round(T · fps) = 30` yet `EndSegment` writes no padding at all
(there is no last frame to copy), so fewer than `round(T · fps)` buffers
reach the encoder and the claimed `expected − frames_written = 30` copies
are not written. -/
theorem c1_counterexample :
    (countEncWrites (recorder_step c1xState RecorderCommand.EndSegment oneSecondEnv).2 = 0) ∧
    (expectedFrames 1000 30 = 30) ∧
    (c1xState.frames_written = 0) ∧
    ¬(expectedFrames 1000 30 ≤ c1xState.frames_written +
        countEncWrites (recorder_step c1xState RecorderCommand.EndSegment oneSecondEnv).2) := by
  decide

/-- Witness for `c1_padding_amended`: encoder alive, 10 of 30 expected
frames written, last frame `[7]` retained. -/
def c1wState : RecorderState :=
  { initialRecorderState with
      video_process := some { stdin_piped := true }
      counter := 1
      frames_written := 10
      last_frame_data := some [7]
      clip_start_time := 0 }

/-- Witness for `c1_padding_amended` at a concrete underrun input. -/
theorem c1_padding_amended_witness :
    (countEncWrites (recorder_step c1wState RecorderCommand.EndSegment oneSecondEnv).2 =
      expectedFrames (oneSecondEnv.now - c1wState.clip_start_time) c1wState.fps -
        c1wState.frames_written) ∧
    ((c1wState.frames_written : ℤ) +
        countEncWrites (recorder_step c1wState RecorderCommand.EndSegment oneSecondEnv).2 ≥
      round (((oneSecondEnv.now - c1wState.clip_start_time : Nat) : ℚ) / 1000 *
        c1wState.fps)) :=
  c1_padding_amended c1wState oneSecondEnv { stdin_piped := true } [7] rfl rfl rfl

/-- C4 counterexample: when `frame()` fails, the capture sub-loop emits
no message at all — in particular no `Error("Camera lost")` — and merely
sleeps 10 ms before retrying the read; it does not re-enter the outer
enumeration loop. -/
theorem c4_counterexample :
    ((captureStep { latest_frame := some [5] } (FrameResult.err "read failed")).2.1 = []) ∧
    (CameraMessage.Error "Camera lost" ∉
      (captureStep { latest_frame := some [5] } (FrameResult.err "read failed")).2.1) ∧
    ((captureStep { latest_frame := some [5] } (FrameResult.err "read failed")).2.2 =
      [CaptureEffect.sleepMs 10]) := by
  refine ⟨rfl, ?_, rfl⟩
  decide

/-- C4 (amended): every `frame()` read failure leaves the capture state
untouched, emits no message on the camera channel, and sleeps 10 ms
before the next blocking read — the capture sub-loop never exits, so the
outer enumeration loop is not re-entered and no `Retry` is awaited. -/
theorem c4_frame_error_amended (st : CaptureState) (msg : String) :
    captureStep st (FrameResult.err msg) = (st, [], [CaptureEffect.sleepMs 10]) := rfl

/-- The requested configuration of the stream-start scenario. -/
def c5cfg : VideoConfig := { width := 1920, height := 1080, fps := 30, fmt := "MJPEG" }

/-- A camera whose negotiated stream reports 25 fps, differing from the
requested 30 fps. -/
def c5cam : OpenedCamera :=
  { reported_width := 1920, reported_height := 1080, reported_fps := 25 }

/-- C5 counterexample: with a requested rate of 30 fps and a device that
reports 25 fps for the negotiated stream, the emitted message is
`StreamStarted(1920, 1080, 30)` — the requested rate echoed back — and
the device-reported `StreamStarted(1920, 1080, 25)` is never sent. -/
theorem c5_counterexample :
    (startStreamMessages c5cfg (some c5cam) true "" =
      [CameraMessage.StreamStarted 1920 1080 30]) ∧
    (c5cam.reported_fps = 25) ∧
    (CameraMessage.StreamStarted 1920 1080 25 ∉
      startStreamMessages c5cfg (some c5cam) true "") := by
  refine ⟨rfl, rfl, ?_⟩
  decide

/-- C5 (amended): for every `StartStream(cfg)` that succeeds, the camera
emits `StreamStarted(cfg.width, cfg.height, cfg.fps)` — the requested
values echoed back; the rate the device reports for the negotiated
stream is never consulted. -/
theorem c5_streamstarted_amended (cfg : VideoConfig) (cam : OpenedCamera) (err : String) :
    startStreamMessages cfg (some cam) true err =
      [CameraMessage.StreamStarted cfg.width cfg.height cfg.fps] := rfl

/-- A 1×1 decoded test image. -/
def c6img : DecodedImage := { width := 1, height := 1, pixels := [9, 9, 9] }

/-- C6 counterexample: the `Frame` message emitted for a captured buffer
`[1,2,3]` carries an **empty** raw buffer (`raw: Arc::new(vec![])`), not
the captured bytes. -/
theorem c6_counterexample :
    ((captureStep { latest_frame := none }
        (FrameResult.ok [1, 2, 3] (some c6img))).2.1 =
      [CameraMessage.Frame [] (resizeNearest c6img W480p H480p) W480p H480p]) ∧
    (([] : List Nat) ≠ [1, 2, 3]) := by
  refine ⟨rfl, ?_⟩
  decide

/-- C6 (amended): every `Frame` message emitted by the capture sub-loop
carries the 854×480 nearest-neighbour preview, but its raw field is the
empty buffer; the captured raw bytes are published only into the
single-slot latest-frame cell for the pacing loop. -/
theorem c6_frame_amended (st : CaptureState) (buffer : List Nat) (img : DecodedImage) :
    captureStep st (FrameResult.ok buffer (some img)) =
      ({ latest_frame := some buffer },
       [CameraMessage.Frame [] (resizeNearest img W480p H480p) W480p H480p], []) := rfl

/-- The deduplicating fold preserves `Nodup` of the accumulator. -/
theorem nodup_foldl_dedupPush (fs : List CameraFormat) :
    ∀ acc : List VideoConfig, acc.Nodup → (fs.foldl dedupPush acc).Nodup := by
  induction fs with
  | nil => intro acc h; exact h
  | cons f fs ih =>
    intro acc h
    rw [List.foldl_cons]
    apply ih
    by_cases hc : toVideoConfig f ∈ acc
    · simpa [dedupPush, hc]
    · simp [dedupPush, hc, List.nodup_append, h]

/-- Membership in the deduplicating fold: exactly the accumulator
together with the configs of the remaining formats. -/
theorem mem_foldl_dedupPush (fs : List CameraFormat) :
    ∀ (acc : List VideoConfig) (c : VideoConfig),
      c ∈ fs.foldl dedupPush acc ↔ c ∈ acc ∨ c ∈ fs.map toVideoConfig := by
  induction fs with
  | nil => intro acc c; simp
  | cons f fs ih =>
    intro acc c
    rw [List.foldl_cons, ih]
    by_cases hc : toVideoConfig f ∈ acc
    · simp only [dedupPush, hc, if_true, List.map_cons, List.mem_cons]
      constructor
      · intro h; tauto
      · rintro (h | h | h)
        · exact Or.inl h
        · exact Or.inl (h ▸ hc)
        · exact Or.inr h
    · simp only [dedupPush, hc, if_false, List.mem_append, List.mem_singleton,
        List.map_cons, List.mem_cons]
      tauto

/-- `cfgLe` is transitive. -/
theorem cfgLe_trans (a b c : VideoConfig)
    (h1 : cfgLe a b = true) (h2 : cfgLe b c = true) : cfgLe a c = true := by
  simp only [cfgLe, Bool.or_eq_true, Bool.and_eq_true, Nat.blt_eq, Nat.ble_eq,
    beq_iff_eq] at *
  omega

/-- `cfgLe` is total. -/
theorem cfgLe_total (a b : VideoConfig) : (cfgLe a b || cfgLe b a) = true := by
  simp only [cfgLe, Bool.or_eq_true, Bool.and_eq_true, Nat.blt_eq, Nat.ble_eq,
    beq_iff_eq]
  omega

/-- C7: for every reported format list, the enumerated capability list is
duplicate-free, is a permutation of the code first-occurrence
deduplication of the reported configs, contains a config exactly when
some reported format yields it (structural equality on `VideoConfig`),
and is sorted descending by width with ties broken by descending fps. -/
theorem c7_capabilities (formats : List CameraFormat) :
    ((enumerateConfigs formats).Nodup) ∧
    ((enumerateConfigs formats).Perm (dedupConfigs formats)) ∧
    (∀ c, c ∈ enumerateConfigs formats ↔ c ∈ formats.map toVideoConfig) ∧
    ((enumerateConfigs formats).Pairwise
      (fun a b => b.width < a.width ∨ (a.width = b.width ∧ b.fps ≤ a.fps))) := by
  have hperm : (enumerateConfigs formats).Perm (dedupConfigs formats) :=
    List.mergeSort_perm (dedupConfigs formats) cfgLe
  have hnodup : (dedupConfigs formats).Nodup :=
    nodup_foldl_dedupPush formats [] List.nodup_nil
  refine ⟨hperm.nodup_iff.mpr hnodup, hperm, ?_, ?_⟩
  · intro c
    rw [hperm.mem_iff]
    unfold dedupConfigs
    rw [mem_foldl_dedupPush]
    simp
  · have hs := @List.sorted_mergeSort VideoConfig cfgLe cfgLe_trans cfgLe_total
      (dedupConfigs formats)
    apply hs.imp
    intro a b h
    simp only [cfgLe, Bool.or_eq_true, Bool.and_eq_true, Nat.blt_eq, Nat.ble_eq,
      beq_iff_eq] at h
    omega
